import Mathlib

/-!
# Verification of the monit platform statistics abstraction layer

Shallow embedding of the per-OS statistics backends:
* `src/net/os/linux/Link.inc` — the Linux network-link refresh (`_update`),
* `src/device/device_common.c` — the OS-independent `filesystem_usage`,
* `src/device/sysdep_OPENBSD.c` — the OpenBSD filesystem backend
  (`_getStatistics`, `_getDiskUsage`, `_getDiskActivity`,
  `device_mountpoint_sysdep`, `filesystem_usage_sysdep`),
* `src/device/sysdep_AIX.c` — the AIX filesystem backend
  (`device_mountpoint_sysdep`).

Kernel interfaces (sysfs files, `lstat`/`stat`/`realpath`, `statfs`,
`getfsstat`, `sysctl`, `/etc/mtab`) are modelled as explicit oracles passed
to each function.  In-place mutation of the `Info_T` / `Link_T` structures
is modelled by explicit state passing; the exception-style `THROW` of the
Linux link code is modelled as `Except.error` (an abort that discards the
partially mutated object from the caller's success path).  C `long long`
fields are modelled as `Int`, C `double` fields as `Rat`, and `uint64_t`
timestamps as `Nat` with explicit reduction modulo `2 ^ 64` where the C
arithmetic can wrap.
-/

namespace Monit

/-! ## Rate/Delta series (libmonit `Statistics_T`) -/

/-- A rate series: the stored previous sample of a cumulative counter.
Modelled from the spec: the Rate/Delta Utility keeps `(previousValue,
previousTimestamp)` per counter together with an availability flag; a rate is
only emitted when two valid samples exist. -/
structure Statistics where
  initialized : Bool
  value : Int
  timestamp : Int
deriving Repr, DecidableEq

/-- The explicit "unavailable this cycle" state of a rate series. -/
def Statistics.unavailable : Statistics :=
  { initialized := false, value := 0, timestamp := 0 }

/-- Modelled from the spec: `Statistics_reset` (libmonit, not under `src/`)
returns the series to the unavailable state, so the rule engine sees an
explicit gap rather than a false "no activity" reading. -/
def Statistics.reset (_ : Statistics) : Statistics :=
  Statistics.unavailable

/-- Modelled from the spec: `Statistics_update` (libmonit, not under `src/`)
always advances the stored sample and marks the series available; the rate it
emits is not modelled here. -/
def Statistics.update (_ : Statistics) (now : Int) (v : Int) : Statistics :=
  { initialized := true, value := v, timestamp := now }

/-! ## Linux network link backend (`src/net/os/linux/Link.inc`) -/

/-- Outcome of `fopen` + `fscanf` on one sysfs attribute file:
the file may be absent (`fopen` fails), present but unparsable
(`fscanf` does not return 1), or yield a parsed value. -/
inductive SysfsRead (α : Type) where
  | absent : SysfsRead α
  | unparsable : SysfsRead α
  | value : α → SysfsRead α
deriving Repr, DecidableEq

/-- Whether the read produced a parsed value. -/
def SysfsRead.isValue {α : Type} : SysfsRead α → Bool
  | .value _ => true
  | _ => false

/-- The per-interface sysfs files under `/sys/class/net/<name>/` that
`_update` reads: the three optional descriptive attributes and the six
mandatory cumulative counters. -/
structure SysfsNet where
  operstate : SysfsRead String
  speed : SysfsRead Int
  duplex : SysfsRead String
  rx_bytes : SysfsRead Int
  rx_packets : SysfsRead Int
  rx_errors : SysfsRead Int
  tx_bytes : SysfsRead Int
  tx_packets : SysfsRead Int
  tx_errors : SysfsRead Int
deriving Repr, DecidableEq

/-- One cumulative link counter with its previous raw sample.
Modelled from the spec: `_updateValue` (libmonit `Link.c`, not under `src/`)
shifts the stored raw pair, always advancing the baseline. -/
structure LinkStat where
  now : Int
  last : Int
deriving Repr, DecidableEq

/-- Modelled from the spec: `_updateValue` stores the newly read raw counter,
keeping the previous one for the delta computation. -/
def LinkStat.updateValue (s : LinkStat) (v : Int) : LinkStat :=
  { now := v, last := s.now }

/-- The `Link_T` fields that `_update` writes: tri-state link state
(`0` down / `1` up; `-1` would be unknown), negotiated speed in bits/sec
(`-1` unknown), duplex (`0` half / `1` full / `-1` unknown), the six
cumulative counters and the `last`/`now` sample timestamps in milliseconds. -/
structure LinkT where
  state : Int
  speed : Int
  duplex : Int
  ibytes : LinkStat
  ipackets : LinkStat
  ierrors : LinkStat
  obytes : LinkStat
  opackets : LinkStat
  oerrors : LinkStat
  timestampLast : Int
  timestampNow : Int
deriving Repr, DecidableEq

/-- C-string truncation: the bytes of `s` up to (excluding) the first NUL. -/
def cString (s : String) : String :=
  ⟨s.data.takeWhile (fun c => c ≠ '\x00')⟩

/-- Modelled from the spec: `Str_replaceChar` (libmonit, not under `src/`)
replaces every occurrence of `o` in the buffer by `n`. -/
def Str_replaceChar (s : String) (o : Char) (n : Char) : String :=
  ⟨s.data.map (fun c => if c = o then n else c)⟩

/-- Modelled from the spec: `Str_isEqual` (libmonit, not under `src/`)
compares two strings for equality. -/
def Str_isEqual (a b : String) : Bool :=
  a = b

/-- The kernel lookup name `_update` builds: the interface argument is copied
into `name` and `Str_replaceChar(name, ':', 0)` writes a NUL over every
colon, so the C string is truncated at the first colon (the IP-alias
suffix). -/
def linkKernelName (interface : String) : String :=
  cString (Str_replaceChar interface ':' '\x00')

/-- `UINT_MAX`: the all-bits-set sentinel some kernels write into the sysfs
`speed` file when the link is down. -/
def UINT_MAX : Int := 4294967295

/-- Reading one mandatory counter file: absence or a parse failure is a
`THROW` (modelled as `Except.error`), mirroring the
`if (f) { if (fscanf != 1) THROW(parse); ... } else THROW(read)` shape. -/
def readCounter (r : SysfsRead Int) (path : String) : Except String Int :=
  match r with
  | .absent => .error ("Cannot read " ++ path)
  | .unparsable => .error ("Cannot parse " ++ path)
  | .value v => .ok v

/-- The speed paragraph of `_update`: if the file opens, a parsed value other
than `UINT_MAX` is normalized from Mbps to bps, anything else (parse failure
or the sentinel) sets `-1`; if the file is absent the field is not written. -/
def applySpeed (r : SysfsRead Int) (L : LinkT) : LinkT :=
  match r with
  | .absent => L
  | .unparsable => { L with speed := -1 }
  | .value v => if v ≠ UINT_MAX then { L with speed := v * 1000000 } else { L with speed := -1 }

/-- The duplex paragraph of `_update`: if the file opens, a parsed token
other than `"unknown"` maps `"full"` to `1` and anything else to `0`; a
parse failure or the token `"unknown"` sets `-1`; an absent file leaves the
field unwritten. -/
def applyDuplex (r : SysfsRead String) (L : LinkT) : LinkT :=
  match r with
  | .absent => L
  | .unparsable => { L with duplex := -1 }
  | .value buf =>
      if ¬ Str_isEqual buf "unknown" then
        { L with duplex := if Str_isEqual buf "full" then 1 else 0 }
      else
        { L with duplex := -1 }

/-- `_update` from `src/net/os/linux/Link.inc`.  `sysfs` maps a kernel
interface name to its `/sys/class/net/<name>/` files; `timeMilli` is the
value `Time_milli()` returns at the end of the cycle.  The operstate
paragraph throws both when the file is absent and when it is unparsable;
the six counter paragraphs throw likewise; speed and duplex degrade as in
`applySpeed` / `applyDuplex`; a successful cycle ends by shifting the
`last`/`now` timestamp pair. -/
def Link_update (sysfs : String → SysfsNet) (L : LinkT) (interface : String)
    (timeMilli : Int) : Except String LinkT := do
  let name := linkKernelName interface
  let files := sysfs name
  let L ← match files.operstate with
    | .absent => .error ("Cannot read /sys/class/net/" ++ name ++ "/operstate")
    | .unparsable => .error ("Cannot parse /sys/class/net/" ++ name ++ "/operstate")
    | .value buf => .ok { L with state := if Str_isEqual buf "down" then 0 else 1 }
  let L := applySpeed files.speed L
  let L := applyDuplex files.duplex L
  let ibytes ← readCounter files.rx_bytes ("/sys/class/net/" ++ name ++ "/statistics/rx_bytes")
  let L := { L with ibytes := L.ibytes.updateValue ibytes }
  let ipackets ← readCounter files.rx_packets ("/sys/class/net/" ++ name ++ "/statistics/rx_packets")
  let L := { L with ipackets := L.ipackets.updateValue ipackets }
  let ierrors ← readCounter files.rx_errors ("/sys/class/net/" ++ name ++ "/statistics/rx_errors")
  let L := { L with ierrors := L.ierrors.updateValue ierrors }
  let obytes ← readCounter files.tx_bytes ("/sys/class/net/" ++ name ++ "/statistics/tx_bytes")
  let L := { L with obytes := L.obytes.updateValue obytes }
  let opackets ← readCounter files.tx_packets ("/sys/class/net/" ++ name ++ "/statistics/tx_packets")
  let L := { L with opackets := L.opackets.updateValue opackets }
  let oerrors ← readCounter files.tx_errors ("/sys/class/net/" ++ name ++ "/statistics/tx_errors")
  let L := { L with oerrors := L.oerrors.updateValue oerrors }
  return { L with timestampLast := L.timestampNow, timestampNow := timeMilli }

/-! ### Concrete link fixtures -/

/-- A sysfs directory where every file is present and parsable. -/
def goodNet : SysfsNet :=
  { operstate := .value "up", speed := .value 1000, duplex := .value "full",
    rx_bytes := .value 239426, rx_packets := .value 2706, rx_errors := .value 0,
    tx_bytes := .value 410775, tx_packets := .value 1649, tx_errors := .value 0 }

/-- A link record before a refresh cycle. -/
def L0 : LinkT :=
  { state := -1, speed := -1, duplex := -1,
    ibytes := ⟨0, 0⟩, ipackets := ⟨0, 0⟩, ierrors := ⟨0, 0⟩,
    obytes := ⟨0, 0⟩, opackets := ⟨0, 0⟩, oerrors := ⟨0, 0⟩,
    timestampLast := 0, timestampNow := 1000 }

/-! ### Name normalization lemmas -/

/-- Over a NUL-free prefix, truncating the colon-to-NUL rewrite at the first
NUL is the same as truncating the original at the first colon. -/
theorem takeWhile_map_colon_eq (l : List Char) (h : ∀ c ∈ l, c ≠ '\x00') :
    (l.map (fun c => if c = ':' then '\x00' else c)).takeWhile (fun c => c ≠ '\x00')
      = l.takeWhile (fun c => c ≠ ':') := by
  induction l with
  | nil => rfl
  | cons c cs ih =>
      have hc : c ≠ '\x00' := (h c (List.mem_cons_self c cs))
      have ih' := ih (fun d hd => h d (List.mem_cons_of_mem c hd))
      simp only [ne_eq, decide_not] at ih'
      by_cases hcol : c = ':'
      · subst hcol
        simp [List.takeWhile_cons]
      · simp [List.takeWhile_cons, hc, hcol, ih']

/-- A colon-free, NUL-free prefix survives the rewrite-and-truncate whole,
and everything from the first colon on is dropped. -/
theorem takeWhile_map_colon_append (l rest : List Char)
    (h : ∀ c ∈ l, c ≠ ':' ∧ c ≠ '\x00') :
    ((l ++ ':' :: rest).map (fun c => if c = ':' then '\x00' else c)).takeWhile
        (fun c => c ≠ '\x00') = l := by
  induction l with
  | nil => simp [List.takeWhile_cons]
  | cons c cs ih =>
      have hc := h c (List.mem_cons_self c cs)
      have ih' := ih (fun d hd => h d (List.mem_cons_of_mem c hd))
      simp only [ne_eq, decide_not, List.map_append, List.map_cons, ite_true] at ih'
      simp [List.takeWhile_cons, hc.1, hc.2, ih']

/-- The kernel lookup name is the interface name truncated at the first
colon (over NUL-free interface strings, as every C string is). -/
theorem linkKernelName_strips_alias (s : String) (hs : ∀ c ∈ s.data, c ≠ '\x00') :
    linkKernelName s = ⟨s.data.takeWhile (fun c => c ≠ ':')⟩ := by
  unfold linkKernelName cString Str_replaceChar
  exact congrArg String.mk (takeWhile_map_colon_eq s.data hs)

/-- Appending an alias suffix after a colon does not change the kernel
lookup name of a colon-free base interface name. -/
theorem linkKernelName_alias (base suffix : String)
    (hb : ∀ c ∈ base.data, c ≠ ':' ∧ c ≠ '\x00') :
    linkKernelName (base ++ ":" ++ suffix) = base := by
  unfold linkKernelName cString Str_replaceChar
  have hcolon : (":" : String).data = [':'] := by decide
  have hdata : (base ++ ":" ++ suffix).data = base.data ++ ':' :: suffix.data := by
    rw [String.data_append, String.data_append, hcolon]
    simp
  rw [hdata]
  exact congrArg String.mk (takeWhile_map_colon_append base.data suffix.data hb)

/-- A colon-free interface name is its own kernel lookup name. -/
theorem linkKernelName_id (base : String)
    (hb : ∀ c ∈ base.data, c ≠ ':' ∧ c ≠ '\x00') :
    linkKernelName base = base := by
  rw [linkKernelName_strips_alias base (fun c hc => (hb c hc).2)]
  have : base.data.takeWhile (fun c => c ≠ ':') = base.data :=
    List.takeWhile_eq_self_iff.mpr (by simpa using fun c hc => (hb c hc).1)
  rw [this]

/-- C6: for every interface name, the Linux link refresh forms the kernel
lookup name by stripping the text from the first colon onward (the IP-alias
suffix): the lookup name is the takeWhile-prefix before the first colon, a
colon-free base with an alias suffix appended resolves to exactly the base,
`_update` on `eth0:0`-style aliases reads the same `/sys/class/net` records
as on the base name, and the fully qualified argument string itself is a
distinct, unmodified value (the embedding never rewrites it). -/
theorem c6_alias_normalization (sysfs : String → SysfsNet) (L : LinkT) (t : Int)
    (base suffix s : String)
    (hb : ∀ c ∈ base.data, c ≠ ':' ∧ c ≠ '\x00')
    (hs : ∀ c ∈ s.data, c ≠ '\x00') :
    linkKernelName s = ⟨s.data.takeWhile (fun c => c ≠ ':')⟩ ∧
    linkKernelName (base ++ ":" ++ suffix) = base ∧
    Link_update sysfs L (base ++ ":" ++ suffix) t = Link_update sysfs L base t ∧
    base ++ ":" ++ suffix ≠ base := by
  refine ⟨linkKernelName_strips_alias s hs, linkKernelName_alias base suffix hb, ?_, ?_⟩
  · unfold Link_update
    rw [linkKernelName_alias base suffix hb, linkKernelName_id base hb]
  · intro hcontra
    have : (base ++ ":" ++ suffix).data = base.data := congrArg String.data hcontra
    rw [String.data_append, String.data_append] at this
    have hlen := congrArg List.length this
    simp at hlen

/-- Witness for C6 at `eth0:0`. -/
theorem c6_alias_normalization_witness :
    linkKernelName "eth0:0" = ⟨"eth0:0".data.takeWhile (fun c => c ≠ ':')⟩ ∧
    linkKernelName ("eth0" ++ ":" ++ "0") = "eth0" ∧
    Link_update (fun _ => goodNet) L0 ("eth0" ++ ":" ++ "0") 2000
      = Link_update (fun _ => goodNet) L0 "eth0" 2000 ∧
    "eth0" ++ ":" ++ "0" ≠ "eth0" := by
  have h := c6_alias_normalization (fun _ => goodNet) L0 2000 "eth0" "0" "eth0:0"
    (by decide) (by decide)
  exact h

/-! ### C1: operstate absence -/

/-- A sysfs directory without the `operstate` file: every other attribute,
including all six counters, is present and parsable, as on an older kernel
that predates the operstate facility. -/
def netNoOperstate : SysfsNet :=
  { goodNet with operstate := .absent }

/-- C1 (divergence witness): when `/sys/class/net/eth0/operstate` is absent
and all six counters are readable, the refresh does not report link state
unknown and proceed — it `THROW`s (`Except.error`) and the cycle fails
before any counter is read, contradicting both the spec and the code's own
comment that operstate is "Optional: may not be present on older
kernels". -/
theorem c1_operstate_absent_fails_cycle :
    Link_update (fun _ => netNoOperstate) L0 "eth0" 5000
      = Except.error "Cannot read /sys/class/net/eth0/operstate" := by
  rfl

/-! ### C3: speed handling -/

/-- A link whose previous cycle read speed 1 Gbit/s; the speed file has since
disappeared (the link went down on a kernel that removes the file). -/
def LStale : LinkT :=
  { L0 with speed := 1000000000 }

/-- A sysfs directory whose `speed` file is absent but everything else,
including all counters, is readable. -/
def netNoSpeed : SysfsNet :=
  { goodNet with speed := .absent }

/-- C3 (counterexample): with the speed facility absent the refresh
succeeds but reports the stale previous speed, not `-1`: the claim that an
absent speed facility is reported as unknown is false on the code, which
simply leaves the field unwritten in that case. -/
theorem c3_counterexample :
    ∃ L', Link_update (fun _ => netNoSpeed) LStale "eth0" 5000 = Except.ok L' ∧
      L'.speed = 1000000000 ∧ L'.speed ≠ -1 := by
  exact ⟨_, rfl, rfl, by decide⟩

/-- The duplex paragraph never writes the speed field. -/
theorem applyDuplex_speed (r : SysfsRead String) (L : LinkT) :
    (applyDuplex r L).speed = L.speed := by
  cases r <;> simp [applyDuplex]
  case value d =>
    by_cases hu : Str_isEqual d "unknown" = true <;> simp [hu]

/-- C3 (amended): on a successful refresh the speed field is `-1` when the
speed file held the `UINT_MAX` sentinel or was unparsable, a valid parsed
megabit value is normalized to bits/sec by multiplying by 1,000,000 (so the
sentinel is never multiplied or zeroed), and an absent speed facility leaves
the field at its previous value rather than setting it to `-1`. -/
theorem c3_speed_normalization (sysfs : String → SysfsNet) (L : LinkT)
    (iface : String) (t : Int) (L' : LinkT)
    (h : Link_update sysfs L iface t = Except.ok L') :
    ((sysfs (linkKernelName iface)).speed = .value UINT_MAX → L'.speed = -1) ∧
    ((sysfs (linkKernelName iface)).speed = .unparsable → L'.speed = -1) ∧
    (∀ v, (sysfs (linkKernelName iface)).speed = .value v → v ≠ UINT_MAX →
      L'.speed = v * 1000000) ∧
    ((sysfs (linkKernelName iface)).speed = .absent → L'.speed = L.speed) := by
  simp only [Link_update] at h
  generalize hfiles : sysfs (linkKernelName iface) = files at h ⊢
  cases hop : files.operstate <;>
    simp only [hop, bind, Except.bind] at h <;>
    try exact Except.noConfusion h
  case value st =>
  cases hrb : files.rx_bytes <;>
    simp only [hrb, readCounter, bind, Except.bind] at h <;>
    try exact Except.noConfusion h
  case value ib =>
  cases hrp : files.rx_packets <;>
    simp only [hrp, readCounter, bind, Except.bind] at h <;>
    try exact Except.noConfusion h
  case value ip =>
  cases hre : files.rx_errors <;>
    simp only [hre, readCounter, bind, Except.bind] at h <;>
    try exact Except.noConfusion h
  case value ie =>
  cases htb : files.tx_bytes <;>
    simp only [htb, readCounter, bind, Except.bind] at h <;>
    try exact Except.noConfusion h
  case value ob =>
  cases htp : files.tx_packets <;>
    simp only [htp, readCounter, bind, Except.bind] at h <;>
    try exact Except.noConfusion h
  case value op =>
  cases hte : files.tx_errors <;>
    simp only [hte, readCounter, bind, Except.bind] at h <;>
    try exact Except.noConfusion h
  case value oe =>
  simp only [pure, Except.pure, Except.ok.injEq] at h
  refine ⟨?_, ?_, ?_, ?_⟩
  · intro hsp
    rw [← h]
    simp [applyDuplex_speed, applySpeed, hsp]
  · intro hsp
    rw [← h]
    simp [applyDuplex_speed, applySpeed, hsp]
  · intro v hv hne
    rw [← h]
    simp [applyDuplex_speed, applySpeed, hv, hne]
  · intro hsp
    rw [← h]
    simp [applyDuplex_speed, applySpeed, hsp]

/-- Witness for C3 (amended) at a concrete refresh: the sentinel value in
the speed file of an otherwise healthy interface yields speed `-1`. -/
theorem c3_speed_normalization_witness :
    ({ goodNet with speed := .value UINT_MAX } : SysfsNet).speed
        = .value UINT_MAX ∧
    ∃ L', Link_update (fun _ => { goodNet with speed := .value UINT_MAX }) L0 "eth0" 5000
        = Except.ok L' ∧ L'.speed = -1 := by
  refine ⟨rfl, ⟨_, rfl, ?_⟩⟩
  exact (c3_speed_normalization (fun _ => { goodNet with speed := .value UINT_MAX })
    L0 "eth0" 5000 _ rfl).1 rfl

/-! ## Unified filesystem info model (`Info_T.priv.filesystem`) -/

/-- The file kinds `filesystem_usage` distinguishes via `S_ISLNK`, `S_ISDIR`,
`S_ISBLK`, `S_ISCHR`; `other` stands for any remaining kind (regular file,
socket, fifo). -/
inductive FileKind where
  | dir : FileKind
  | blk : FileKind
  | chr : FileKind
  | lnk : FileKind
  | other : FileKind
deriving Repr, DecidableEq

/-- The result of a successful `lstat`/`stat`: the file kind and the
ownership/mode data `filesystem_usage` copies out of `struct stat`. -/
structure StatBuf where
  kind : FileKind
  st_mode : Int
  st_uid : Int
  st_gid : Int
deriving Repr, DecidableEq

/-- The `Info_T.priv.filesystem` fields touched by the code under
verification: ownership/mode, raw usage counters, derived usage values
(percents as exact rationals in place of C doubles), mount flags, the
resolved filesystem type string, and the activity rate series. -/
structure FilesystemInfo where
  mode : Int
  uid : Int
  gid : Int
  f_bsize : Int
  f_blocks : Int
  f_blocksfree : Int
  f_blocksfreetotal : Int
  f_files : Int
  f_filesfree : Int
  inode_total : Int
  space_total : Int
  inode_percent : Rat
  space_percent : Rat
  flags : Int
  flagsPrev : Int
  deviceType : String
  readTime : Statistics
  readBytes : Statistics
  readOperations : Statistics
  writeTime : Statistics
  writeBytes : Statistics
  writeOperations : Statistics
  runTime : Statistics
deriving Repr, DecidableEq

/-- The `if (! rv)` epilogue of `filesystem_usage`: the six activity rate
series are reset to the unavailable state. -/
def resetActivity (inf : FilesystemInfo) : FilesystemInfo :=
  { inf with
    readTime := inf.readTime.reset,
    readBytes := inf.readBytes.reset,
    readOperations := inf.readOperations.reset,
    writeTime := inf.writeTime.reset,
    writeBytes := inf.writeBytes.reset,
    writeOperations := inf.writeOperations.reset }

/-! ## OpenBSD filesystem backend (`src/device/sysdep_OPENBSD.c`) -/

/-- One `struct statfs` entry as `getfsstat`/`statfs` return it: the fields
the OpenBSD backend reads. -/
structure StatfsBuf where
  f_bsize : Int
  f_blocks : Int
  f_bavail : Int
  f_bfree : Int
  f_files : Int
  f_ffree : Int
  f_flags : Int
  f_fstypename : String
  f_mntonname : String
  f_mntfromname : String
deriving Repr, DecidableEq

/-- One `struct diskstats` entry of the `HW_DISKSTATS` sysctl array: name
and the cumulative counters `_getDiskActivity` reads (`ds_time` already
converted to milliseconds as by `_timevalToMilli`). -/
structure DiskStats where
  ds_name : String
  ds_rbytes : Int
  ds_wbytes : Int
  ds_rxfer : Int
  ds_wxfer : Int
  ds_timeMilli : Int
deriving Repr, DecidableEq

/-- The process-wide `_statistics` cache of `sysdep_OPENBSD.c`: snapshot
timestamp (uint64 milliseconds), disk count and the disk statistics array. -/
structure StatisticsCache where
  timestamp : Nat
  diskCount : Nat
  disk : List DiskStats
deriving Repr, DecidableEq

/-- The kernel-facing oracles of one monitoring cycle on OpenBSD:
`lstat`/`realpath`/`stat` on the configured path, the freshly enumerated
mount table (`getfsstat`; `none` models a failing call), per-mountpoint
`statfs`, the two disk sysctls (`none` models failure) and the
`Time_milli()` reading taken inside `_getDiskActivity`. -/
structure FsEnv where
  lstat : String → Option StatBuf
  realpath : String → Option String
  stat : String → Option StatBuf
  mountTable : Option (List StatfsBuf)
  statfs : String → Option StatfsBuf
  diskCount : Option Nat
  diskStats : Option (List DiskStats)
  timeMilli : Nat

/-- Modelled from the spec: the `IS` string-comparison macro (`monit.h`, not
under `src/`) — exact string matching on the mount table's recorded
fields, with no trailing-slash normalization and no symlink resolution. -/
def IS (a b : String) : Bool :=
  a = b

/-- `device_mountpoint_sysdep` from `src/device/sysdep_OPENBSD.c`: enumerate
the mount table afresh via `getfsstat` and return the `f_mntonname` of the
first entry whose `f_mntfromname` matches the device string, or `NULL`
(`none`) when `getfsstat` fails or no entry matches. -/
def device_mountpoint_sysdep_OPENBSD (mountTable : Option (List StatfsBuf))
    (dev : String) : Option String :=
  match mountTable with
  | none => none
  | some table =>
      match table.find? (fun sfs => IS sfs.f_mntfromname dev) with
      | some sfs => some sfs.f_mntonname
      | none => none

/-- One `/etc/mtab` entry as `getmntent` returns it. -/
structure Mntent where
  mnt_fsname : String
  mnt_dir : String
  mnt_type : String
deriving Repr, DecidableEq

/-- `device_mountpoint_sysdep` from `src/device/sysdep_AIX.c`: walk the
freshly opened `/etc/mtab` (`none` models `setmntent` failure) and return
the `mnt_dir` of the first entry whose `mnt_fsname` matches the device
string, else `NULL` (`none`). -/
def device_mountpoint_sysdep_AIX (mtab : Option (List Mntent))
    (dev : String) : Option String :=
  match mtab with
  | none => none
  | some entries =>
      match entries.find? (fun mnt => IS dev mnt.mnt_fsname) with
      | some mnt => some mnt.mnt_dir
      | none => none

/-- `_getDiskUsage` from `src/device/sysdep_OPENBSD.c`: `statfs` the
mountpoint; on failure report `false` without touching the info; on success
copy the raw usage counters and rotate the mount-flags pair. -/
def _getDiskUsage (env : FsEnv) (mountpoint : String) (inf : FilesystemInfo) :
    Bool × FilesystemInfo :=
  match env.statfs mountpoint with
  | none => (false, inf)
  | some usage =>
      (true,
        { inf with
          f_bsize := usage.f_bsize,
          f_blocks := usage.f_blocks,
          f_blocksfree := usage.f_bavail,
          f_blocksfreetotal := usage.f_bfree,
          f_files := usage.f_files,
          f_filesfree := usage.f_ffree,
          flagsPrev := inf.flags,
          flags := usage.f_flags })

/-- `DS_DISKNAMELEN`: the OpenBSD disk-name buffer length. -/
def DS_DISKNAMELEN : Nat := 16

/-- `_parseDevice` from `src/device/sysdep_OPENBSD.c`: take the basename of
the device path, scan backwards for the last digit, and keep the prefix up
to and including it (clipped to the `DS_DISKNAMELEN` buffer), so
`/dev/sd0a` parses to `sd0`; a basename without any digit fails. -/
def _parseDevice (path : String) : Option String :=
  let base := ((path.data.reverse.takeWhile (fun c => c ≠ '/')).reverse : List Char)
  match (List.range base.length).reverse.find? (fun i => (base.getD i ' ').isDigit) with
  | some i => some ⟨base.take (min (i + 1) (DS_DISKNAMELEN - 1))⟩
  | none => none

/-- `_getDevice` from `src/device/sysdep_OPENBSD.c`: enumerate the mount
table, find the first entry whose `f_mntonname` matches the mountpoint,
record its filesystem type into the info and parse its `f_mntfromname`
into a disk name; report `false` when `getfsstat` fails, no entry matches,
or the device path has no parsable disk name. -/
def _getDevice (env : FsEnv) (mountpoint : String) (inf : FilesystemInfo) :
    Option String × FilesystemInfo :=
  match env.mountTable with
  | none => (none, inf)
  | some table =>
      match table.find? (fun sfs => IS sfs.f_mntonname mountpoint) with
      | none => (none, inf)
      | some sfs =>
          let inf := { inf with deviceType := sfs.f_fstypename }
          match _parseDevice sfs.f_mntfromname with
          | some device => (some device, inf)
          | none => (none, inf)

/-- `2 ^ 64`, the modulus of the C `uint64_t` arithmetic. -/
def UINT64_MOD : Nat := 18446744073709551616

/-- `_getStatistics` from `src/device/sysdep_OPENBSD.c`: refresh the
process-wide snapshot only when
`now > _statistics.timestamp + 1000 || now < _statistics.timestamp - 1000`
(both computed in `uint64_t` arithmetic, hence the explicit mod); on
refresh, the `HW_DISKCOUNT` sysctl failure aborts before anything is
written, the `HW_DISKSTATS` sysctl failure aborts after the count was
stored, and only a fully successful refresh stores the new timestamp. -/
def _getStatistics (env : FsEnv) (now : Nat) (c : StatisticsCache) :
    Bool × StatisticsCache :=
  if now > (c.timestamp + 1000) % UINT64_MOD
      ∨ now < (c.timestamp + (UINT64_MOD - 1000)) % UINT64_MOD then
    match env.diskCount with
    | none => (false, c)
    | some n =>
        match env.diskStats with
        | none => (false, { c with diskCount := n })
        | some ds => (true, { timestamp := now, diskCount := n, disk := ds })
  else
    (true, c)

/-- `_getDiskActivity` from `src/device/sysdep_OPENBSD.c`: resolve the
mountpoint to a disk name; on success refresh the snapshot and update the
five activity series from the first matching `diskstats` entry; when the
device cannot be resolved, reset the six activity series but still return
`true`. -/
def _getDiskActivity (env : FsEnv) (mountpoint : String) (inf : FilesystemInfo)
    (c : StatisticsCache) : Bool × FilesystemInfo × StatisticsCache :=
  match _getDevice env mountpoint inf with
  | (some device, inf) =>
      match _getStatistics env env.timeMilli c with
      | (rv, c) =>
          if rv then
            match c.disk.find? (fun d => d.ds_name = device) with
            | some d =>
                (true,
                  { inf with
                    readBytes := inf.readBytes.update env.timeMilli d.ds_rbytes,
                    writeBytes := inf.writeBytes.update env.timeMilli d.ds_wbytes,
                    readOperations := inf.readOperations.update env.timeMilli d.ds_rxfer,
                    writeOperations := inf.writeOperations.update env.timeMilli d.ds_wxfer,
                    runTime := inf.runTime.update env.timeMilli d.ds_timeMilli },
                  c)
            | none => (true, inf, c)
          else
            (false, inf, c)
  | (none, inf) => (true, resetActivity inf, c)

/-- `filesystem_usage_sysdep` from `src/device/sysdep_OPENBSD.c`:
`_getDiskUsage && _getDiskActivity`, with C short-circuit evaluation. -/
def filesystem_usage_sysdep (env : FsEnv) (mountpoint : String)
    (inf : FilesystemInfo) (c : StatisticsCache) :
    Bool × FilesystemInfo × StatisticsCache :=
  match _getDiskUsage env mountpoint inf with
  | (false, inf) => (false, inf, c)
  | (true, inf) => _getDiskActivity env mountpoint inf c

/-! ## Mountpoint/device glue (`src/device/device.c`, not under `src/`) -/

/-- Modelled from the spec: `Filesystem_getByMountpoint` (`device.c`, not
under `src/`) treats the path as a mountpoint and reads capacity and
activity counters through the platform's `filesystem_usage_sysdep`. -/
def Filesystem_getByMountpoint (env : FsEnv) (inf : FilesystemInfo)
    (path : String) (c : StatisticsCache) :
    Bool × FilesystemInfo × StatisticsCache :=
  filesystem_usage_sysdep env path inf c

/-- Modelled from the spec: `Filesystem_getByDevice` (`device.c`, not under
`src/`) resolves the device string to a mountpoint through the freshly
enumerated mount table (`device_mountpoint_sysdep`) and on success reads
usage through `filesystem_usage_sysdep`; a failed lookup reports failure
without touching the info. -/
def Filesystem_getByDevice (env : FsEnv) (inf : FilesystemInfo)
    (path : String) (c : StatisticsCache) :
    Bool × FilesystemInfo × StatisticsCache :=
  match device_mountpoint_sysdep_OPENBSD env.mountTable path with
  | none => (false, inf, c)
  | some mountpoint => filesystem_usage_sysdep env mountpoint inf c

/-! ## `filesystem_usage` (`src/device/device_common.c`) -/

/-- The assignments at the head of the `else` (stat-success) branch of
`filesystem_usage`: copy ownership/mode out of `struct stat` and derive the
usage totals and percents from the raw usage counters as they currently
stand (the previous cycle's sample), with the zero-total guard on each
percent. -/
def fsStatSet (sb : StatBuf) (inf : FilesystemInfo) : FilesystemInfo :=
  { inf with
    mode := sb.st_mode,
    uid := sb.st_uid,
    gid := sb.st_gid,
    inode_total := inf.f_files - inf.f_filesfree,
    space_total := inf.f_blocks - inf.f_blocksfreetotal,
    inode_percent :=
      if inf.f_files > 0 then
        100 * ((inf.f_files - inf.f_filesfree : Int) : Rat) / ((inf.f_files : Int) : Rat)
      else 0,
    space_percent :=
      if inf.f_blocks > 0 then
        100 * ((inf.f_blocks - inf.f_blocksfreetotal : Int) : Rat) / ((inf.f_blocks : Int) : Rat)
      else 0 }

/-- The rest of the stat-success branch of `filesystem_usage`: after
`fsStatSet`, dispatch on the file kind — directory → lookup by mountpoint,
block/character device → lookup by device, anything else → failure with a
log message. -/
def fsUsageStatBranch (env : FsEnv) (path : String) (sb : StatBuf)
    (inf : FilesystemInfo) (c : StatisticsCache) :
    Bool × FilesystemInfo × StatisticsCache :=
  match sb.kind with
  | .dir => Filesystem_getByMountpoint env (fsStatSet sb inf) path c
  | .blk => Filesystem_getByDevice env (fsStatSet sb inf) path c
  | .chr => Filesystem_getByDevice env (fsStatSet sb inf) path c
  | _ => (false, fsStatSet sb inf, c)

/-- The `if (! rv)` epilogue of `filesystem_usage`: on failure the six
activity rate series are reset to the unavailable state. -/
def fsUsageFinish : Bool × FilesystemInfo × StatisticsCache →
    Bool × FilesystemInfo × StatisticsCache
  | (true, inf, c) => (true, inf, c)
  | (false, inf, c) => (false, resetActivity inf, c)

/-- `filesystem_usage` from `src/device/device_common.c`: `lstat` the
configured path; dereference a symbolic link via `realpath` + `stat`
(returning `false` directly — without the activity reset — when `realpath`
fails); a failed (re-)stat falls back to `Filesystem_getByDevice` on the
original path string (NFS/CIFS-style connection strings, deleted
mountpoints, unconfigured hotplug devices); a successful stat proceeds as
in `fsUsageStatBranch`; finally the activity series are reset whenever the
chosen branch reported failure. -/
def filesystem_usage (env : FsEnv) (path : String) (inf : FilesystemInfo)
    (c : StatisticsCache) : Bool × FilesystemInfo × StatisticsCache :=
  match env.lstat path with
  | some sb =>
      if sb.kind = .lnk then
        match env.realpath path with
        | none => (false, inf, c)
        | some buf =>
            match env.stat buf with
            | none => fsUsageFinish (Filesystem_getByDevice env inf path c)
            | some sb2 => fsUsageFinish (fsUsageStatBranch env path sb2 inf c)
      else
        fsUsageFinish (fsUsageStatBranch env path sb inf c)
  | none => fsUsageFinish (Filesystem_getByDevice env inf path c)

/-! ## Frame lemmas: which fields the activity path can never write -/

/-- `a` agrees with `b` on ownership/mode, the raw usage counters, the
derived usage values and the mount flags — every `FilesystemInfo` field
except the resolved device type and the activity rate series. -/
def UsageFrame (a b : FilesystemInfo) : Prop :=
  a.mode = b.mode ∧ a.uid = b.uid ∧ a.gid = b.gid ∧
  a.f_bsize = b.f_bsize ∧ a.f_blocks = b.f_blocks ∧
  a.f_blocksfree = b.f_blocksfree ∧ a.f_blocksfreetotal = b.f_blocksfreetotal ∧
  a.f_files = b.f_files ∧ a.f_filesfree = b.f_filesfree ∧
  a.inode_total = b.inode_total ∧ a.space_total = b.space_total ∧
  a.inode_percent = b.inode_percent ∧ a.space_percent = b.space_percent ∧
  a.flags = b.flags ∧ a.flagsPrev = b.flagsPrev

instance (a b : FilesystemInfo) : Decidable (UsageFrame a b) := by
  unfold UsageFrame
  infer_instance

theorem usageFrame_refl (a : FilesystemInfo) : UsageFrame a a := by
  unfold UsageFrame
  exact ⟨rfl, rfl, rfl, rfl, rfl, rfl, rfl, rfl, rfl, rfl, rfl, rfl, rfl, rfl, rfl⟩

theorem usageFrame_trans {a b c : FilesystemInfo}
    (h1 : UsageFrame a b) (h2 : UsageFrame b c) : UsageFrame a c := by
  unfold UsageFrame at h1 h2 ⊢
  obtain ⟨e1, e2, e3, e4, e5, e6, e7, e8, e9, e10, e11, e12, e13, e14, e15⟩ := h1
  obtain ⟨f1, f2, f3, f4, f5, f6, f7, f8, f9, f10, f11, f12, f13, f14, f15⟩ := h2
  exact ⟨e1.trans f1, e2.trans f2, e3.trans f3, e4.trans f4, e5.trans f5,
    e6.trans f6, e7.trans f7, e8.trans f8, e9.trans f9, e10.trans f10,
    e11.trans f11, e12.trans f12, e13.trans f13, e14.trans f14, e15.trans f15⟩

/-- Resetting the activity series writes no usage-frame field. -/
theorem resetActivity_frame (inf : FilesystemInfo) :
    UsageFrame (resetActivity inf) inf := by
  unfold UsageFrame resetActivity
  exact ⟨rfl, rfl, rfl, rfl, rfl, rfl, rfl, rfl, rfl, rfl, rfl, rfl, rfl, rfl, rfl⟩

/-- `_getDevice` writes only the device type string. -/
theorem _getDevice_frame (env : FsEnv) (mp : String) (inf : FilesystemInfo) :
    UsageFrame (_getDevice env mp inf).2 inf := by
  unfold _getDevice
  repeat' split
  all_goals
    exact ⟨rfl, rfl, rfl, rfl, rfl, rfl, rfl, rfl, rfl, rfl, rfl, rfl, rfl, rfl, rfl⟩

/-- `_getDiskActivity` writes only activity series and the device type. -/
theorem _getDiskActivity_frame (env : FsEnv) (mp : String) (inf : FilesystemInfo)
    (c : StatisticsCache) : UsageFrame (_getDiskActivity env mp inf c).2.1 inf := by
  unfold _getDiskActivity
  split
  next device inf2 heq =>
    have hframe : UsageFrame inf2 inf := by
      have h0 := _getDevice_frame env mp inf
      rw [heq] at h0
      exact h0
    split
    next rv c2 heq2 =>
      split
      · split
        · exact usageFrame_trans
            ⟨rfl, rfl, rfl, rfl, rfl, rfl, rfl, rfl, rfl, rfl, rfl, rfl, rfl, rfl, rfl⟩ hframe
        · exact hframe
      · exact hframe
  next inf2 heq =>
    have hframe : UsageFrame inf2 inf := by
      have h0 := _getDevice_frame env mp inf
      rw [heq] at h0
      exact h0
    exact usageFrame_trans (resetActivity_frame inf2) hframe

/-- `a` agrees with `b` on ownership/mode and the derived usage values —
the fields written only by the stat-success head of `filesystem_usage` and
never by the sysdep usage/activity chain. -/
def DerivedFrame (a b : FilesystemInfo) : Prop :=
  a.mode = b.mode ∧ a.uid = b.uid ∧ a.gid = b.gid ∧
  a.inode_total = b.inode_total ∧ a.space_total = b.space_total ∧
  a.inode_percent = b.inode_percent ∧ a.space_percent = b.space_percent

instance (a b : FilesystemInfo) : Decidable (DerivedFrame a b) := by
  unfold DerivedFrame
  infer_instance

theorem derivedFrame_refl (a : FilesystemInfo) : DerivedFrame a a :=
  ⟨rfl, rfl, rfl, rfl, rfl, rfl, rfl⟩

theorem derivedFrame_trans {a b c : FilesystemInfo}
    (h1 : DerivedFrame a b) (h2 : DerivedFrame b c) : DerivedFrame a c := by
  obtain ⟨e1, e2, e3, e4, e5, e6, e7⟩ := h1
  obtain ⟨f1, f2, f3, f4, f5, f6, f7⟩ := h2
  exact ⟨e1.trans f1, e2.trans f2, e3.trans f3, e4.trans f4, e5.trans f5,
    e6.trans f6, e7.trans f7⟩

/-- A usage frame in particular preserves the derived fields. -/
theorem usageFrame_toDerived {a b : FilesystemInfo} (h : UsageFrame a b) :
    DerivedFrame a b := by
  obtain ⟨e1, e2, e3, _, _, _, _, _, _, e10, e11, e12, e13, _, _⟩ := h
  exact ⟨e1, e2, e3, e10, e11, e12, e13⟩

/-- `_getDiskUsage` writes only raw usage counters and mount flags. -/
theorem _getDiskUsage_derived (env : FsEnv) (mp : String) (inf : FilesystemInfo) :
    DerivedFrame (_getDiskUsage env mp inf).2 inf := by
  unfold _getDiskUsage
  split
  · exact derivedFrame_refl inf
  · exact ⟨rfl, rfl, rfl, rfl, rfl, rfl, rfl⟩

/-- The whole sysdep usage/activity chain never writes ownership/mode or
the derived usage values. -/
theorem filesystem_usage_sysdep_derived (env : FsEnv) (mp : String)
    (inf : FilesystemInfo) (c : StatisticsCache) :
    DerivedFrame (filesystem_usage_sysdep env mp inf c).2.1 inf := by
  unfold filesystem_usage_sysdep
  cases hdu : _getDiskUsage env mp inf with
  | mk rv infU =>
      have hdrv : DerivedFrame infU inf := by
        have h0 := _getDiskUsage_derived env mp inf
        rwa [hdu] at h0
      cases rv with
      | false => exact hdrv
      | true =>
          exact derivedFrame_trans
            (usageFrame_toDerived (_getDiskActivity_frame env mp infU c)) hdrv

/-- `Filesystem_getByDevice` never writes ownership/mode or the derived
usage values. -/
theorem Filesystem_getByDevice_derived (env : FsEnv) (inf : FilesystemInfo)
    (path : String) (c : StatisticsCache) :
    DerivedFrame (Filesystem_getByDevice env inf path c).2.1 inf := by
  unfold Filesystem_getByDevice
  split
  · exact derivedFrame_refl inf
  · exact filesystem_usage_sysdep_derived env _ inf c

/-- The failure epilogue never writes ownership/mode or the derived usage
values. -/
theorem fsUsageFinish_derived (r : Bool × FilesystemInfo × StatisticsCache) :
    DerivedFrame (fsUsageFinish r).2.1 r.2.1 := by
  unfold fsUsageFinish
  split
  · exact derivedFrame_refl _
  · exact usageFrame_toDerived (resetActivity_frame _)

/-- The stat-success branch leaves the values `fsStatSet` wrote in place:
whatever the kind dispatch and the sysdep chain do afterwards, the
ownership/mode and derived usage fields of the result are those computed by
`fsStatSet` from the pre-call raw counters. -/
theorem fsUsageStatBranch_derived (env : FsEnv) (path : String) (sb : StatBuf)
    (inf : FilesystemInfo) (c : StatisticsCache) :
    DerivedFrame (fsUsageFinish (fsUsageStatBranch env path sb inf c)).2.1
      (fsStatSet sb inf) := by
  refine derivedFrame_trans (fsUsageFinish_derived _) ?_
  unfold fsUsageStatBranch
  cases sb.kind
  · exact filesystem_usage_sysdep_derived env path (fsStatSet sb inf) c
  · exact Filesystem_getByDevice_derived env (fsStatSet sb inf) path c
  · exact Filesystem_getByDevice_derived env (fsStatSet sb inf) path c
  · exact derivedFrame_refl _
  · exact derivedFrame_refl _

/-! ### Concrete filesystem fixtures -/

/-- An activity series holding a live previous sample. -/
def sAct : Statistics := { initialized := true, value := 500, timestamp := 100 }

/-- A filesystem info record with last-cycle usage values and live activity
series. -/
def inf0 : FilesystemInfo :=
  { mode := 493, uid := 10, gid := 20,
    f_bsize := 512, f_blocks := 1000, f_blocksfree := 300,
    f_blocksfreetotal := 400, f_files := 2000, f_filesfree := 1500,
    inode_total := 500, space_total := 600,
    inode_percent := 25, space_percent := 60,
    flags := 1, flagsPrev := 1, deviceType := "ffs",
    readTime := sAct, readBytes := sAct, readOperations := sAct,
    writeTime := sAct, writeBytes := sAct, writeOperations := sAct,
    runTime := sAct }

/-- A disk-statistics cache snapshot. -/
def cache0 : StatisticsCache :=
  { timestamp := 5000, diskCount := 1,
    disk := [{ ds_name := "sd0", ds_rbytes := 11, ds_wbytes := 12,
               ds_rxfer := 13, ds_wxfer := 14, ds_timeMilli := 15 }] }

/-- A cycle in which the configured path stats to nothing and the mount
table holds no matching entry: identity resolution must fail. -/
def envUnresolvable : FsEnv :=
  { lstat := fun _ => none, realpath := fun _ => none, stat := fun _ => none,
    mountTable := some [], statfs := fun _ => none,
    diskCount := none, diskStats := none, timeMilli := 6000 }

/-! ### C2: resolution failure resets activity, keeps usage -/

/-- C2: when the configured path is neither a resolvable mountpoint nor a
device (`lstat` fails, or a symlink dereferences to a path whose re-stat
fails) and the fallback device-string lookup over the mount table also
fails, `filesystem_usage` returns failure, the six activity rate series are
reset to the unavailable state, and every usage field retains its last
known value. -/
theorem c2_resolution_failure_resets_activity (env : FsEnv) (path : String)
    (inf : FilesystemInfo) (c : StatisticsCache)
    (hfall : env.lstat path = none ∨
      ∃ sb buf, env.lstat path = some sb ∧ sb.kind = FileKind.lnk ∧
        env.realpath path = some buf ∧ env.stat buf = none)
    (hlookup : device_mountpoint_sysdep_OPENBSD env.mountTable path = none) :
    filesystem_usage env path inf c = (false, resetActivity inf, c) ∧
    (resetActivity inf).readTime = Statistics.unavailable ∧
    (resetActivity inf).readBytes = Statistics.unavailable ∧
    (resetActivity inf).readOperations = Statistics.unavailable ∧
    (resetActivity inf).writeTime = Statistics.unavailable ∧
    (resetActivity inf).writeBytes = Statistics.unavailable ∧
    (resetActivity inf).writeOperations = Statistics.unavailable ∧
    UsageFrame (resetActivity inf) inf := by
  have hbyd : Filesystem_getByDevice env inf path c = (false, inf, c) := by
    unfold Filesystem_getByDevice
    rw [hlookup]
  have hmain : filesystem_usage env path inf c = (false, resetActivity inf, c) := by
    rcases hfall with hl | ⟨sb, buf, hsb, hkind, hrp, hst⟩
    · unfold filesystem_usage
      rw [hl, hbyd]
      rfl
    · unfold filesystem_usage
      rw [hsb]
      simp only [hkind, ite_true, hrp, hst, hbyd]
      rfl
  exact ⟨hmain, rfl, rfl, rfl, rfl, rfl, rfl, resetActivity_frame inf⟩

/-- Witness for C2: the unresolvable cycle on the concrete fixtures. -/
theorem c2_resolution_failure_resets_activity_witness :
    filesystem_usage envUnresolvable "/data" inf0 cache0
        = (false, resetActivity inf0, cache0) ∧
    (resetActivity inf0).readBytes = Statistics.unavailable ∧
    UsageFrame (resetActivity inf0) inf0 := by
  have h := c2_resolution_failure_resets_activity envUnresolvable "/data" inf0 cache0
    (Or.inl rfl) rfl
  exact ⟨h.1, h.2.2.1, h.2.2.2.2.2.2.2⟩

/-! ### C9: ownership/mode fields are written only on the stat-success path -/

/-- C9: `mode`, `uid`, `gid` are written exactly on the path where the
initial stat (and symlink dereference, if any) succeeded on a real
filesystem object — there they take the stat's values — and on every other
path through `filesystem_usage` (failed `lstat` with device fallback,
failed `realpath`, failed re-stat after dereference) they keep their prior
values. -/
theorem c9_ownership_only_on_stat_success (env : FsEnv) (path : String)
    (inf : FilesystemInfo) (c : StatisticsCache) :
    (env.lstat path = none →
      (filesystem_usage env path inf c).2.1.mode = inf.mode ∧
      (filesystem_usage env path inf c).2.1.uid = inf.uid ∧
      (filesystem_usage env path inf c).2.1.gid = inf.gid) ∧
    (∀ sb, env.lstat path = some sb → sb.kind = FileKind.lnk →
      env.realpath path = none →
      (filesystem_usage env path inf c).2.1.mode = inf.mode ∧
      (filesystem_usage env path inf c).2.1.uid = inf.uid ∧
      (filesystem_usage env path inf c).2.1.gid = inf.gid) ∧
    (∀ sb buf, env.lstat path = some sb → sb.kind = FileKind.lnk →
      env.realpath path = some buf → env.stat buf = none →
      (filesystem_usage env path inf c).2.1.mode = inf.mode ∧
      (filesystem_usage env path inf c).2.1.uid = inf.uid ∧
      (filesystem_usage env path inf c).2.1.gid = inf.gid) ∧
    (∀ sb, env.lstat path = some sb → sb.kind ≠ FileKind.lnk →
      (filesystem_usage env path inf c).2.1.mode = sb.st_mode ∧
      (filesystem_usage env path inf c).2.1.uid = sb.st_uid ∧
      (filesystem_usage env path inf c).2.1.gid = sb.st_gid) ∧
    (∀ sb buf sb2, env.lstat path = some sb → sb.kind = FileKind.lnk →
      env.realpath path = some buf → env.stat buf = some sb2 →
      (filesystem_usage env path inf c).2.1.mode = sb2.st_mode ∧
      (filesystem_usage env path inf c).2.1.uid = sb2.st_uid ∧
      (filesystem_usage env path inf c).2.1.gid = sb2.st_gid) := by
  refine ⟨?_, ?_, ?_, ?_, ?_⟩
  · intro hl
    unfold filesystem_usage
    rw [hl]
    have h1 := fsUsageFinish_derived (Filesystem_getByDevice env inf path c)
    have h2 := Filesystem_getByDevice_derived env inf path c
    have h := derivedFrame_trans h1 h2
    exact ⟨h.1, h.2.1, h.2.2.1⟩
  · intro sb hsb hkind hrp
    unfold filesystem_usage
    rw [hsb]
    simp [hkind, hrp]
  · intro sb buf hsb hkind hrp hst
    unfold filesystem_usage
    rw [hsb]
    simp only [hkind, ite_true, hrp, hst]
    have h1 := fsUsageFinish_derived (Filesystem_getByDevice env inf path c)
    have h2 := Filesystem_getByDevice_derived env inf path c
    have h := derivedFrame_trans h1 h2
    exact ⟨h.1, h.2.1, h.2.2.1⟩
  · intro sb hsb hkind
    unfold filesystem_usage
    rw [hsb]
    simp only [hkind, ite_false, if_neg hkind]
    have h := fsUsageStatBranch_derived env path sb inf c
    refine ⟨h.1.trans rfl, h.2.1.trans rfl, h.2.2.1.trans rfl⟩
  · intro sb buf sb2 hsb hkind hrp hst
    unfold filesystem_usage
    rw [hsb]
    simp only [hkind, ite_true, hrp, hst]
    have h := fsUsageStatBranch_derived env path sb2 inf c
    refine ⟨h.1.trans rfl, h.2.1.trans rfl, h.2.2.1.trans rfl⟩

/-- The stat result of a healthy directory mountpoint. -/
def sbDir : StatBuf :=
  { kind := FileKind.dir, st_mode := 16877, st_uid := 7, st_gid := 8 }

/-- The mount-table entry backing `/data`. -/
def sfsData : StatfsBuf :=
  { f_bsize := 512, f_blocks := 1000, f_bavail := 300, f_bfree := 400,
    f_files := 2000, f_ffree := 1500, f_flags := 1, f_fstypename := "ffs",
    f_mntonname := "/data", f_mntfromname := "/dev/sd0a" }

/-- The fresh `statfs` reading for `/data` this cycle. -/
def sfsFresh : StatfsBuf :=
  { f_bsize := 1024, f_blocks := 5000, f_bavail := 2000, f_bfree := 2500,
    f_files := 8000, f_ffree := 6000, f_flags := 2, f_fstypename := "ffs",
    f_mntonname := "/data", f_mntfromname := "/dev/sd0a" }

/-- This cycle's `diskstats` entry for `sd0`. -/
def dsSd0 : DiskStats :=
  { ds_name := "sd0", ds_rbytes := 101, ds_wbytes := 102, ds_rxfer := 103,
    ds_wxfer := 104, ds_timeMilli := 105 }

/-- A cycle in which `/data` is a healthy directory mountpoint. -/
def envDirOk : FsEnv :=
  { lstat := fun p => if p = "/data" then some sbDir else none,
    realpath := fun _ => none, stat := fun _ => none,
    mountTable := some [sfsData],
    statfs := fun p => if p = "/data" then some sfsFresh else none,
    diskCount := some 1,
    diskStats := some [dsSd0],
    timeMilli := 7000 }

/-- Witness for C9: the failed-lstat path keeps the prior ownership, the
successful directory stat installs the stat's ownership. -/
theorem c9_ownership_only_on_stat_success_witness :
    ((filesystem_usage envUnresolvable "/data" inf0 cache0).2.1.mode = inf0.mode ∧
     (filesystem_usage envUnresolvable "/data" inf0 cache0).2.1.uid = inf0.uid ∧
     (filesystem_usage envUnresolvable "/data" inf0 cache0).2.1.gid = inf0.gid) ∧
    ((filesystem_usage envDirOk "/data" inf0 cache0).2.1.mode = 16877 ∧
     (filesystem_usage envDirOk "/data" inf0 cache0).2.1.uid = 7 ∧
     (filesystem_usage envDirOk "/data" inf0 cache0).2.1.gid = 8) := by
  constructor
  · exact (c9_ownership_only_on_stat_success envUnresolvable "/data" inf0 cache0).1 rfl
  · exact (c9_ownership_only_on_stat_success envDirOk "/data" inf0 cache0).2.2.2.1
      sbDir (by decide) (by decide)

/-! ### C7: zero totals yield zero percents -/

/-- C7: on every path where the stat of the configured path succeeded
(directly, or through a symlink dereference), a zero total inode count in
the current raw counters makes the reported `inode_percent` exactly `0`,
and a zero total block count makes `space_percent` exactly `0` — the guard
`total > 0` keeps the percent computation away from a zero divisor. -/
theorem c7_zero_total_percent_zero (env : FsEnv) (path : String)
    (inf : FilesystemInfo) (c : StatisticsCache) :
    (∀ sb, env.lstat path = some sb → sb.kind ≠ FileKind.lnk →
      (inf.f_files = 0 → (filesystem_usage env path inf c).2.1.inode_percent = 0) ∧
      (inf.f_blocks = 0 → (filesystem_usage env path inf c).2.1.space_percent = 0)) ∧
    (∀ sb buf sb2, env.lstat path = some sb → sb.kind = FileKind.lnk →
      env.realpath path = some buf → env.stat buf = some sb2 →
      (inf.f_files = 0 → (filesystem_usage env path inf c).2.1.inode_percent = 0) ∧
      (inf.f_blocks = 0 → (filesystem_usage env path inf c).2.1.space_percent = 0)) := by
  constructor
  · intro sb hsb hkind
    unfold filesystem_usage
    rw [hsb]
    simp only [if_neg hkind]
    have h := fsUsageStatBranch_derived env path sb inf c
    constructor
    · intro hf
      rw [h.2.2.2.2.2.1]
      simp [fsStatSet, hf]
    · intro hb
      rw [h.2.2.2.2.2.2]
      simp [fsStatSet, hb]
  · intro sb buf sb2 hsb hkind hrp hst
    unfold filesystem_usage
    rw [hsb]
    simp only [hkind, ite_true, hrp, hst]
    have h := fsUsageStatBranch_derived env path sb2 inf c
    constructor
    · intro hf
      rw [h.2.2.2.2.2.1]
      simp [fsStatSet, hf]
    · intro hb
      rw [h.2.2.2.2.2.2]
      simp [fsStatSet, hb]

/-- A record whose previous-cycle raw counters are all zero, as for a
filesystem reporting no inodes at all. -/
def infZero : FilesystemInfo :=
  { inf0 with f_files := 0, f_filesfree := 0, f_blocks := 0, f_blocksfreetotal := 0 }

/-- Witness for C7: on the healthy directory cycle with zero raw totals,
both percents are reported as `0`. -/
theorem c7_zero_total_percent_zero_witness :
    (filesystem_usage envDirOk "/data" infZero cache0).2.1.inode_percent = 0 ∧
    (filesystem_usage envDirOk "/data" infZero cache0).2.1.space_percent = 0 := by
  have h := (c7_zero_total_percent_zero envDirOk "/data" infZero cache0).1
    sbDir (by decide) (by decide)
  exact ⟨h.1 rfl, h.2 rfl⟩

/-! ### C10: derived usage is computed from the previous cycle's raw sample -/

/-- The failure epilogue writes no usage-frame field. -/
theorem fsUsageFinish_frame (r : Bool × FilesystemInfo × StatisticsCache) :
    UsageFrame (fsUsageFinish r).2.1 r.2.1 := by
  unfold fsUsageFinish
  split
  · exact usageFrame_refl _
  · exact resetActivity_frame _

/-- C10: when the configured path stats as a directory and the fresh
`statfs` of that mountpoint succeeds, the derived fields of the resulting
info are computed from the raw usage counters as they stood *before* the
call (the previous cycle's sample) — while the raw fields themselves now
hold the freshly read values, because `fsStatSet` runs before
`Filesystem_getByMountpoint` overwrites the raw counters. -/
theorem c10_derived_from_previous_sample (env : FsEnv) (path : String)
    (inf : FilesystemInfo) (c : StatisticsCache) (sb : StatBuf) (u : StatfsBuf)
    (hsb : env.lstat path = some sb) (hdir : sb.kind = FileKind.dir)
    (hstatfs : env.statfs path = some u) :
    (filesystem_usage env path inf c).2.1.inode_total
        = inf.f_files - inf.f_filesfree ∧
    (filesystem_usage env path inf c).2.1.space_total
        = inf.f_blocks - inf.f_blocksfreetotal ∧
    (filesystem_usage env path inf c).2.1.inode_percent
        = (if inf.f_files > 0 then
            100 * ((inf.f_files - inf.f_filesfree : Int) : Rat) / ((inf.f_files : Int) : Rat)
          else 0) ∧
    (filesystem_usage env path inf c).2.1.space_percent
        = (if inf.f_blocks > 0 then
            100 * ((inf.f_blocks - inf.f_blocksfreetotal : Int) : Rat) / ((inf.f_blocks : Int) : Rat)
          else 0) ∧
    (filesystem_usage env path inf c).2.1.f_files = u.f_files ∧
    (filesystem_usage env path inf c).2.1.f_filesfree = u.f_ffree ∧
    (filesystem_usage env path inf c).2.1.f_blocks = u.f_blocks ∧
    (filesystem_usage env path inf c).2.1.f_blocksfreetotal = u.f_bfree := by
  have hknl : sb.kind ≠ FileKind.lnk := by
    rw [hdir]
    intro hcontra
    cases hcontra
  set infU : FilesystemInfo :=
    { fsStatSet sb inf with
      f_bsize := u.f_bsize, f_blocks := u.f_blocks,
      f_blocksfree := u.f_bavail, f_blocksfreetotal := u.f_bfree,
      f_files := u.f_files, f_filesfree := u.f_ffree,
      flagsPrev := (fsStatSet sb inf).flags, flags := u.f_flags } with hU
  have hrew : filesystem_usage env path inf c
      = fsUsageFinish (_getDiskActivity env path infU c) := by
    unfold filesystem_usage
    rw [hsb]
    simp only [if_neg hknl]
    unfold fsUsageStatBranch
    simp only [hdir]
    unfold Filesystem_getByMountpoint filesystem_usage_sysdep _getDiskUsage
    rw [hstatfs, hU]
  rw [hrew]
  have hframe := usageFrame_trans
    (fsUsageFinish_frame (_getDiskActivity env path infU c))
    (_getDiskActivity_frame env path infU c)
  obtain ⟨_, _, _, _, e5, _, e7, e8, e9, e10, e11, e12, e13, _, _⟩ := hframe
  refine ⟨e10.trans (by rw [hU]; try simp [fsStatSet]),
    e11.trans (by rw [hU]; try simp [fsStatSet]),
    e12.trans (by rw [hU]; try simp [fsStatSet]),
    e13.trans (by rw [hU]; try simp [fsStatSet]),
    e8.trans (by rw [hU]; try simp [fsStatSet]),
    e9.trans (by rw [hU]; try simp [fsStatSet]),
    e5.trans (by rw [hU]; try simp [fsStatSet]),
    e7.trans (by rw [hU]; try simp [fsStatSet])⟩

/-- Witness for C10: on the healthy directory cycle, the derived totals
come from the stale raw counters of `inf0` (2000/1500, 1000/400) while the
raw counters are replaced by the fresh `statfs` values (8000/6000,
5000/2500). -/
theorem c10_derived_from_previous_sample_witness :
    (filesystem_usage envDirOk "/data" inf0 cache0).2.1.inode_total = 500 ∧
    (filesystem_usage envDirOk "/data" inf0 cache0).2.1.space_total = 600 ∧
    (filesystem_usage envDirOk "/data" inf0 cache0).2.1.f_files = 8000 ∧
    (filesystem_usage envDirOk "/data" inf0 cache0).2.1.f_blocks = 5000 := by
  have h := c10_derived_from_previous_sample envDirOk "/data" inf0 cache0
    sbDir sfsFresh (by decide) (by decide) (by decide)
  refine ⟨h.1.trans (by decide), h.2.1.trans (by decide),
    h.2.2.2.2.1.trans (by decide), h.2.2.2.2.2.2.1.trans (by decide)⟩

/-! ### C4: staleness threshold of the OpenBSD statistics snapshot -/

/-- An environment whose disk sysctls would deliver fresh data, different
from anything cached. -/
def envFreshDisks : FsEnv :=
  { envUnresolvable with
    diskCount := some 2,
    diskStats := some [dsSd0, { dsSd0 with ds_name := "sd1" }] }

/-- C4 (counterexample): at `now = 9500` against a snapshot taken at
`timestamp = 10000` the clock has jumped 500 ms backwards, yet
`_getStatistics` keeps the cached snapshot untouched (the fresh kernel data
of the environment is not read): a detected backward clock jump does *not*
unconditionally trigger a refresh — only jumps of more than one second
do. -/
theorem c4_counterexample :
    (9500 : Nat) < (StatisticsCache.timestamp
        { timestamp := 10000, diskCount := 1, disk := [dsSd0] }) ∧
    _getStatistics envFreshDisks 9500
        { timestamp := 10000, diskCount := 1, disk := [dsSd0] }
      = (true, { timestamp := 10000, diskCount := 1, disk := [dsSd0] }) := by
  constructor
  · decide
  · rfl

/-- C4 (amended): in the realistic range (`timestamp ≥ 1000 ms` and no
`uint64` overflow), the snapshot is re-read from the kernel when and only
when it is older than one second or the clock jumped backwards by more than
one second; otherwise — including backward jumps of up to one second — the
cached snapshot is reused unchanged.  On a refresh, both sysctls must
succeed for the new snapshot and its timestamp to be stored; a failing
`HW_DISKCOUNT` leaves the cache untouched and a failing `HW_DISKSTATS`
stores only the new disk count. -/
theorem c4_staleness_refresh (env : FsEnv) (now : Nat) (c : StatisticsCache)
    (h1 : 1000 ≤ c.timestamp) (h2 : c.timestamp + 1000 < UINT64_MOD) :
    (¬ (now > c.timestamp + 1000 ∨ now + 1000 < c.timestamp) →
      _getStatistics env now c = (true, c)) ∧
    ((now > c.timestamp + 1000 ∨ now + 1000 < c.timestamp) →
      (∀ n ds, env.diskCount = some n → env.diskStats = some ds →
        _getStatistics env now c = (true, { timestamp := now, diskCount := n, disk := ds })) ∧
      (env.diskCount = none → _getStatistics env now c = (false, c)) ∧
      (∀ n, env.diskCount = some n → env.diskStats = none →
        _getStatistics env now c = (false, { c with diskCount := n }))) := by
  have e1 : (c.timestamp + 1000) % UINT64_MOD = c.timestamp + 1000 :=
    Nat.mod_eq_of_lt h2
  have e2 : (c.timestamp + (UINT64_MOD - 1000)) % UINT64_MOD = c.timestamp - 1000 := by
    unfold UINT64_MOD at h2 ⊢
    omega
  constructor
  · intro hno
    unfold _getStatistics
    rw [e1, e2, if_neg]
    omega
  · intro hyes
    refine ⟨?_, ?_, ?_⟩
    · intro n ds hn hds
      unfold _getStatistics
      rw [e1, e2, if_pos (by omega), hn, hds]
    · intro hn
      unfold _getStatistics
      rw [e1, e2, if_pos (by omega), hn]
    · intro n hn hds
      unfold _getStatistics
      rw [e1, e2, if_pos (by omega), hn, hds]

/-- Witness for C4 (amended): a 500 ms-old snapshot is reused; a 2-second-old
snapshot is refreshed from the kernel. -/
theorem c4_staleness_refresh_witness :
    _getStatistics envFreshDisks 10500
        { timestamp := 10000, diskCount := 1, disk := [dsSd0] }
      = (true, { timestamp := 10000, diskCount := 1, disk := [dsSd0] }) ∧
    _getStatistics envFreshDisks 12000
        { timestamp := 10000, diskCount := 1, disk := [dsSd0] }
      = (true, { timestamp := 12000, diskCount := 2,
                 disk := [dsSd0, { dsSd0 with ds_name := "sd1" }] }) := by
  constructor
  · exact (c4_staleness_refresh envFreshDisks 10500
      { timestamp := 10000, diskCount := 1, disk := [dsSd0] }
      (by decide) (by decide)).1 (by decide)
  · exact ((c4_staleness_refresh envFreshDisks 12000
      { timestamp := 10000, diskCount := 1, disk := [dsSd0] }
      (by decide) (by decide)).2 (by decide)).1 2 _ rfl rfl

/-! ### C8: mountpoint lookup is exact first-match over the fresh table -/

/-- `find?` returns the entry at the first index satisfying the predicate. -/
theorem find?_eq_get_of_first {α : Type} (p : α → Bool) (l : List α) (i : Nat)
    (hi : i < l.length) (hp : p (l.get ⟨i, hi⟩) = true)
    (hbefore : ∀ j (hj : j < i), p (l.get ⟨j, Nat.lt_trans hj hi⟩) = false) :
    l.find? p = some (l.get ⟨i, hi⟩) := by
  induction l generalizing i with
  | nil => exact absurd hi (Nat.not_lt_zero i)
  | cons a as ih =>
      cases i with
      | zero =>
          simp only [List.get] at hp
          simp [List.find?_cons, hp]
      | succ i =>
          have ha : p a = false := hbefore 0 (Nat.succ_pos i)
          simp only [List.find?_cons, ha]
          exact ih i (Nat.lt_of_succ_lt_succ hi) hp
            (fun j hj => hbefore (j + 1) (Nat.succ_lt_succ hj))

/-- `find?` misses when no element satisfies the predicate. -/
theorem find?_eq_none_of_all {α : Type} (p : α → Bool) (l : List α)
    (h : ∀ a ∈ l, p a = false) : l.find? p = none := by
  induction l with
  | nil => rfl
  | cons a as ih =>
      simp only [List.find?_cons, h a (List.mem_cons_self a as)]
      exact ih (fun b hb => h b (List.mem_cons_of_mem a hb))

/-- C8: both the OpenBSD and the AIX `device_mountpoint_sysdep` walk the
freshly enumerated mount table passed for this call and return the
mountpoint of the first entry whose source-device field equals the given
device string exactly (no trailing-slash normalization, no symlink
resolution), and report not-found (`NULL`) when no entry's source-device
field equals it. -/
theorem c8_device_mountpoint_exact_first_match (table : List StatfsBuf)
    (mtab : List Mntent) (dev : String) :
    ((∀ e ∈ table, e.f_mntfromname ≠ dev) →
      device_mountpoint_sysdep_OPENBSD (some table) dev = none) ∧
    (∀ i (hi : i < table.length), (table.get ⟨i, hi⟩).f_mntfromname = dev →
      (∀ j (hj : j < i), (table.get ⟨j, Nat.lt_trans hj hi⟩).f_mntfromname ≠ dev) →
      device_mountpoint_sysdep_OPENBSD (some table) dev
        = some (table.get ⟨i, hi⟩).f_mntonname) ∧
    ((∀ e ∈ mtab, e.mnt_fsname ≠ dev) →
      device_mountpoint_sysdep_AIX (some mtab) dev = none) ∧
    (∀ i (hi : i < mtab.length), (mtab.get ⟨i, hi⟩).mnt_fsname = dev →
      (∀ j (hj : j < i), (mtab.get ⟨j, Nat.lt_trans hj hi⟩).mnt_fsname ≠ dev) →
      device_mountpoint_sysdep_AIX (some mtab) dev
        = some (mtab.get ⟨i, hi⟩).mnt_dir) := by
  refine ⟨?_, ?_, ?_, ?_⟩
  · intro hall
    have hf := find?_eq_none_of_all (fun sfs => IS sfs.f_mntfromname dev) table
      (fun e he => by simp [IS, hall e he])
    unfold device_mountpoint_sysdep_OPENBSD
    simp only [hf]
  · intro i hi hp hbefore
    have hf := find?_eq_get_of_first (fun sfs => IS sfs.f_mntfromname dev) table i hi
      (by simp only [IS, decide_eq_true_eq]; exact hp)
      (fun j hj => by simp only [IS, decide_eq_false_iff_not]; exact hbefore j hj)
    unfold device_mountpoint_sysdep_OPENBSD
    simp only [hf]
  · intro hall
    have hf := find?_eq_none_of_all (fun mnt => IS dev mnt.mnt_fsname) mtab
      (fun e he => by simp [IS]; exact fun hc => (hall e he) hc.symm)
    unfold device_mountpoint_sysdep_AIX
    simp only [hf]
  · intro i hi hp hbefore
    have hf := find?_eq_get_of_first (fun mnt => IS dev mnt.mnt_fsname) mtab i hi
      (by simp only [IS, decide_eq_true_eq]; exact hp.symm)
      (fun j hj => by
        simp only [IS, decide_eq_false_iff_not]
        exact fun hc => (hbefore j hj) hc.symm)
    unfold device_mountpoint_sysdep_AIX
    simp only [hf]

/-- A mount-table entry for a different disk. -/
def sfsOther : StatfsBuf :=
  { sfsData with f_mntfromname := "/dev/sd1a", f_mntonname := "/other" }

/-- An `/etc/mtab` entry for `/dev/sd0a`. -/
def mntData : Mntent :=
  { mnt_fsname := "/dev/sd0a", mnt_dir := "/data", mnt_type := "ffs" }

/-- Witness for C8: a two-entry table whose second entry matches `/dev/sd0a`
exactly; a trailing-slash variant and a different device do not match. -/
theorem c8_device_mountpoint_exact_first_match_witness :
    device_mountpoint_sysdep_OPENBSD (some [sfsOther, sfsData]) "/dev/sd0a"
        = some "/data" ∧
    device_mountpoint_sysdep_OPENBSD (some [sfsData]) "/dev/sd0a/" = none ∧
    device_mountpoint_sysdep_AIX (some [mntData]) "/dev/sd0a" = some "/data" ∧
    device_mountpoint_sysdep_AIX (some [mntData]) "/dev/sd0" = none := by
  have h := c8_device_mountpoint_exact_first_match [sfsOther, sfsData] [mntData]
    "/dev/sd0a"
  refine ⟨?_, ?_, ?_, ?_⟩
  · exact (h.2.1 1 (by decide) (by decide)
      (fun j hj => by
        have hj0 : j = 0 := by omega
        subst hj0
        show ([sfsOther, sfsData].get ⟨0, Nat.succ_pos 1⟩).f_mntfromname ≠ "/dev/sd0a"
        decide)).trans
      (by decide)
  · exact (c8_device_mountpoint_exact_first_match [sfsData] [] "/dev/sd0a/").1
      (fun e he => by
        simp only [List.mem_singleton] at he
        rw [he]
        decide)
  · exact (h.2.2.2 0 (by decide) (by decide)
      (fun j hj => absurd hj (Nat.not_lt_zero j))).trans (by decide)
  · exact (c8_device_mountpoint_exact_first_match [] [mntData] "/dev/sd0").2.2.1
      (fun e he => by
        simp only [List.mem_singleton] at he
        rw [he]
        decide)

/-! ### C5: mandatory counters and timestamp advance -/

/-- The speed paragraph never writes the timestamps. -/
theorem applySpeed_timestamps (r : SysfsRead Int) (L : LinkT) :
    (applySpeed r L).timestampLast = L.timestampLast ∧
    (applySpeed r L).timestampNow = L.timestampNow := by
  cases r <;> simp [applySpeed]
  case value v => by_cases hv : v = UINT_MAX <;> simp [hv]

/-- The duplex paragraph never writes the timestamps. -/
theorem applyDuplex_timestamps (r : SysfsRead String) (L : LinkT) :
    (applyDuplex r L).timestampLast = L.timestampLast ∧
    (applyDuplex r L).timestampNow = L.timestampNow := by
  cases r <;> simp [applyDuplex]
  case value d => by_cases hu : Str_isEqual d "unknown" = true <;> simp [hu]

/-- C5: a failure to read or parse any of the six cumulative counters is a
hard failure for the cycle — whenever the refresh succeeds all six counters
parsed, and whenever some counter did not parse the refresh returns an
error; and every successful cycle ends by advancing the timestamp pair
(`last` takes the previous `now`, `now` takes the current time), regardless
of the optional state/speed/duplex outcomes. -/
theorem c5_counters_mandatory_timestamps_advance (sysfs : String → SysfsNet)
    (L : LinkT) (iface : String) (t : Int) :
    (∀ L', Link_update sysfs L iface t = Except.ok L' →
      ((sysfs (linkKernelName iface)).rx_bytes.isValue = true ∧
       (sysfs (linkKernelName iface)).rx_packets.isValue = true ∧
       (sysfs (linkKernelName iface)).rx_errors.isValue = true ∧
       (sysfs (linkKernelName iface)).tx_bytes.isValue = true ∧
       (sysfs (linkKernelName iface)).tx_packets.isValue = true ∧
       (sysfs (linkKernelName iface)).tx_errors.isValue = true) ∧
      L'.timestampLast = L.timestampNow ∧ L'.timestampNow = t) ∧
    (¬ ((sysfs (linkKernelName iface)).rx_bytes.isValue = true ∧
        (sysfs (linkKernelName iface)).rx_packets.isValue = true ∧
        (sysfs (linkKernelName iface)).rx_errors.isValue = true ∧
        (sysfs (linkKernelName iface)).tx_bytes.isValue = true ∧
        (sysfs (linkKernelName iface)).tx_packets.isValue = true ∧
        (sysfs (linkKernelName iface)).tx_errors.isValue = true) →
      ∃ msg, Link_update sysfs L iface t = Except.error msg) := by
  have main : ∀ L', Link_update sysfs L iface t = Except.ok L' →
      ((sysfs (linkKernelName iface)).rx_bytes.isValue = true ∧
       (sysfs (linkKernelName iface)).rx_packets.isValue = true ∧
       (sysfs (linkKernelName iface)).rx_errors.isValue = true ∧
       (sysfs (linkKernelName iface)).tx_bytes.isValue = true ∧
       (sysfs (linkKernelName iface)).tx_packets.isValue = true ∧
       (sysfs (linkKernelName iface)).tx_errors.isValue = true) ∧
      L'.timestampLast = L.timestampNow ∧ L'.timestampNow = t := by
    intro L' h
    simp only [Link_update] at h
    generalize hfiles : sysfs (linkKernelName iface) = files at h ⊢
    cases hop : files.operstate <;>
      simp only [hop, bind, Except.bind] at h <;>
      try exact Except.noConfusion h
    case value st =>
    cases hrb : files.rx_bytes <;>
      simp only [hrb, readCounter, bind, Except.bind] at h <;>
      try exact Except.noConfusion h
    case value ib =>
    cases hrp : files.rx_packets <;>
      simp only [hrp, readCounter, bind, Except.bind] at h <;>
      try exact Except.noConfusion h
    case value ip =>
    cases hre : files.rx_errors <;>
      simp only [hre, readCounter, bind, Except.bind] at h <;>
      try exact Except.noConfusion h
    case value ie =>
    cases htb : files.tx_bytes <;>
      simp only [htb, readCounter, bind, Except.bind] at h <;>
      try exact Except.noConfusion h
    case value ob =>
    cases htp : files.tx_packets <;>
      simp only [htp, readCounter, bind, Except.bind] at h <;>
      try exact Except.noConfusion h
    case value op =>
    cases hte : files.tx_errors <;>
      simp only [hte, readCounter, bind, Except.bind] at h <;>
      try exact Except.noConfusion h
    case value oe =>
    simp only [pure, Except.pure, Except.ok.injEq] at h
    refine ⟨⟨rfl, rfl, rfl, rfl, rfl, rfl⟩, ?_, ?_⟩
    · rw [← h]
      show (applyDuplex files.duplex (applySpeed files.speed _)).timestampNow
        = L.timestampNow
      rw [(applyDuplex_timestamps _ _).2, (applySpeed_timestamps _ _).2]
    · rw [← h]
  refine ⟨main, ?_⟩
  intro hbad
  cases hres : Link_update sysfs L iface t with
  | error msg => exact ⟨msg, rfl⟩
  | ok L' => exact absurd (main L' hres).1 hbad

/-- A sysfs directory where all three optional descriptive files are
absent but the six counters are readable. -/
def netOnlyCounters : SysfsNet :=
  { goodNet with operstate := .value "up", speed := .absent, duplex := .absent }

/-- Witness for C5: with speed and duplex absent the refresh still succeeds
and the timestamp pair advances; with `tx_errors` unreadable the refresh
errors out. -/
theorem c5_counters_mandatory_timestamps_advance_witness :
    (∃ L', Link_update (fun _ => netOnlyCounters) L0 "eth0" 7000 = Except.ok L' ∧
      L'.timestampLast = L0.timestampNow ∧ L'.timestampNow = 7000) ∧
    (∃ msg, Link_update (fun _ => { goodNet with tx_errors := .absent })
        L0 "eth0" 7000 = Except.error msg) := by
  constructor
  · refine ⟨_, rfl, ?_⟩
    exact ((c5_counters_mandatory_timestamps_advance
      (fun _ => netOnlyCounters) L0 "eth0" 7000).1 _ rfl).2
  · exact (c5_counters_mandatory_timestamps_advance
      (fun _ => { goodNet with tx_errors := .absent }) L0 "eth0" 7000).2
      (by decide)

end Monit
